import Mathlib

/-!
Shallow embedding of the Setu API integration service
(`app/main.py`, `app/models.py`, `app/db_models.py`) and proofs about it.

Stored records are modelled as Lean structures mirroring the SQLAlchemy
models; the database is a triple of lists; the external Setu API, the
generated UUIDs and the success or failure of each persistence commit are
inputs to the endpoint functions (oracles), so that every endpoint is a
pure function from request, oracle inputs and store state to a response,
an external-call record and a new store state.

String truthiness in the Python source (`if pan.trace_id`) is modelled as
inequality with the empty string; nullable columns holding strings are
modelled as `String` with `""` for NULL, and absent JSON keys as
`Option String` with `none` for absent.
-/

namespace Setu

/-- Mirror of `db_models.PANVerification` (the identity-check record):
the columns the orchestrator writes.  The autoincrement integer key and
the creation timestamp play no role in any endpoint logic and are
omitted; nullable string columns are `Option String`. -/
structure PANVerification where
  pan : String
  full_name : String
  category : String
  aadhaar_seeding_status : Option String
  first_name : Option String
  middle_name : Option String
  last_name : Option String
  status : String
  message : String
  trace_id : String
deriving DecidableEq

/-- Mirror of `db_models.ReversePennyDrop` (the bank-challenge record). -/
structure ReversePennyDrop where
  id : String
  short_url : String
  status : String
  trace_id : String
  upi_bill_id : String
  upi_link : String
  valid_upto : String
deriving DecidableEq

/-- Mirror of `db_models.Payment` (the payment-confirmation record). -/
structure Payment where
  request_id : String
  payment_status : Bool
  trace_id : String
deriving DecidableEq

/-- The record store: the three tables the orchestrator reads and writes. -/
structure AppState where
  pans : List PANVerification
  rpds : List ReversePennyDrop
  payments : List Payment
deriving DecidableEq

/-! ## Funnel-metrics engine (`get_admin_metrics`, `app/main.py` 758-848) -/

/-- `{pan.trace_id for pan in successful_pan_verifications if pan.trace_id}`
where `successful_pan_verifications` is the query
`filter(PANVerification.status == "success")`. -/
def successful_pan_trace_ids (pans : List PANVerification) : Finset String :=
  ((pans.filter (fun p => p.status == "success" && p.trace_id != "")).map
    (fun p => p.trace_id)).toFinset

/-- `{rpd.trace_id for rpd in successful_rpd_attempts if rpd.trace_id}` where
`successful_rpd_attempts` is the query
`filter(status == "SUCCESS" or status == "BAV_REVERSE_PENNY_DROP_CREATED")`. -/
def successful_rpd_trace_ids (rpds : List ReversePennyDrop) : Finset String :=
  ((rpds.filter (fun r =>
      (r.status == "SUCCESS" || r.status == "BAV_REVERSE_PENNY_DROP_CREATED")
        && r.trace_id != "")).map (fun r => r.trace_id)).toFinset

/-- `{pan.trace_id for pan in failed_pan_verifications if pan.trace_id}` where
`failed_pan_verifications` is the query `filter(status != "success")`. -/
def failed_pan_trace_ids (pans : List PANVerification) : Finset String :=
  ((pans.filter (fun p => p.status != "success" && p.trace_id != "")).map
    (fun p => p.trace_id)).toFinset

/-- `{rpd.trace_id for rpd in failed_rpd_attempts if rpd.trace_id}` where
`failed_rpd_attempts` is the query `filter(status != "SUCCESS")`. -/
def failed_rpd_trace_ids (rpds : List ReversePennyDrop) : Finset String :=
  ((rpds.filter (fun r => r.status != "SUCCESS" && r.trace_id != "")).map
    (fun r => r.trace_id)).toFinset

/-- `{rpd.trace_id for rpd in all_rpd_attempts if rpd.trace_id}`. -/
def all_rpd_trace_ids (rpds : List ReversePennyDrop) : Finset String :=
  ((rpds.filter (fun r => r.trace_id != "")).map (fun r => r.trace_id)).toFinset

/-- The JSON body returned by `/api/admin/metrics`.  Python integers are
unbounded and two of the reported numbers are differences, so every field
is an `Int`. -/
structure AdminMetrics where
  totalKycAttempted : Int
  totalKycSuccessful : Int
  totalKycFailed : Int
  totalKycFailedDueToPan : Int
  totalKycFailedDueToBankAccount : Int
  totalKycFailedDueToBoth : Int
  totalPanWithoutRpd : Int
deriving DecidableEq

/-- The body of the `try` block of `get_admin_metrics`: the pure
computation of the funnel metrics from the stored identity-check and
bank-challenge records. -/
def computeMetrics (pans : List PANVerification) (rpds : List ReversePennyDrop) :
    AdminMetrics :=
  let total_kyc_attempted : Int := pans.length
  let sp := successful_pan_trace_ids pans
  let sr := successful_rpd_trace_ids rpds
  let successful_both := sp ∩ sr
  let total_kyc_successful : Int := successful_both.card
  let fp := failed_pan_trace_ids pans
  let fr := failed_rpd_trace_ids rpds
  let total_kyc_failed_due_to_pan : Int := fp.card
  let total_kyc_failed_due_to_bank : Int := (fr ∩ sp).card
  let total_kyc_failed_due_to_both : Int := (fp ∩ fr).card
  let ar := all_rpd_trace_ids rpds
  let total_pan_without_rpd : Int := (sp \ ar).card
  { totalKycAttempted := total_kyc_attempted
    totalKycSuccessful := total_kyc_successful
    totalKycFailed := total_kyc_attempted - total_kyc_successful
    totalKycFailedDueToPan := total_kyc_failed_due_to_pan - total_kyc_failed_due_to_both
    totalKycFailedDueToBankAccount := total_kyc_failed_due_to_bank
    totalKycFailedDueToBoth := total_kyc_failed_due_to_both
    totalPanWithoutRpd := total_pan_without_rpd }

/-- The `except` branch of `get_admin_metrics`: every count is zero. -/
def zeroMetrics : AdminMetrics :=
  { totalKycAttempted := 0, totalKycSuccessful := 0, totalKycFailed := 0
    totalKycFailedDueToPan := 0, totalKycFailedDueToBankAccount := 0
    totalKycFailedDueToBoth := 0, totalPanWithoutRpd := 0 }

/-- `get_admin_metrics`: the whole endpoint body.  `computeOk` is the
exception oracle — `false` means some step of the computation raised, in
which case the handler returns the all-zero body instead of an error. -/
def get_admin_metrics (computeOk : Bool) (pans : List PANVerification)
    (rpds : List ReversePennyDrop) : AdminMetrics :=
  if computeOk then computeMetrics pans rpds else zeroMetrics

/-! ## Access gate -/

/-- Mirror of `models.UserRole`. -/
inductive UserRole where
  | ADMIN
  | MEMBER
deriving DecidableEq

/-- The fields of `db_models.User` that the role gates consult. -/
structure User where
  username : String
  role : UserRole
  is_active : Bool
deriving DecidableEq

/-- Modelled from the spec: the dependency `get_member_user` lives in
`app/auth.py`, which is not among the provided sources.  Per the spec
(§4.3), the gate validates the bearer token carried by the request and
checks the role; a missing or invalid token, or an inactive subject, is
rejected with an auth error before the handler body runs.  `auth` is the
outcome of token validation for the inbound request: `none` when the
request carries no valid token.  An administrator has full access, so
either role passes the member gate. -/
def get_member_user (auth : Option User) : Option User :=
  match auth with
  | none => none
  | some u =>
      if u.is_active && (u.role == UserRole.MEMBER || u.role == UserRole.ADMIN) then
        some u
      else none

/-! ## Identity stage (`verify_pan`, `app/main.py` 109-421) -/

/-- Mirror of `models.PANVerificationRequest` (the three string fields;
the pydantic field validators belong to the out-of-scope schema layer, so
the handler is modelled on arbitrary strings). -/
structure PANVerificationRequest where
  pan : String
  consent : String
  reason : String
deriving DecidableEq

/-- The `data` object of the upstream JSON body, as the handler reads it:
each key the handler looks up is an `Option String`, `none` when the key
is absent. -/
structure PanReplyData where
  fullName : Option String
  full_name : Option String
  aadhaarSeedingStatus : Option String
  aadhaar_seeding_status : Option String
  category : Option String
  firstName : Option String
  first_name : Option String
  middleName : Option String
  middle_name : Option String
  lastName : Option String
  last_name : Option String
deriving DecidableEq

/-- The external-call oracle for the identity stage: either the transport
raised (`httpx.RequestError`) or the provider replied with a status code
and a JSON body carrying an optional top-level `verification` marker, an
optional `data` object and an optional `message`. -/
inductive PanExternal where
  | networkError
  | reply (code : Nat) (verification : Option String) (data : PanReplyData)
      (message : Option String)
deriving DecidableEq

/-- `consent.upper()`: uppercase every character.  This is
`String.toUpper` (`s.map Char.toUpper`) written over the character list,
so that it also evaluates by kernel reduction. -/
def strUpper (s : String) : String :=
  String.mk (s.data.map Char.toUpper)

/-- Python truthiness of `dict.get(key)`: the key is absent, or present
with a falsy (empty) string. -/
def truthy (o : Option String) : Bool :=
  match o with
  | none => false
  | some s => s != ""

/-- `d.get(k1, d.get(k2, default))` on two spellings of one field: the
first present key wins even when its value is empty. -/
def pick2 (a b : Option String) (d : String) : String :=
  a.getD (b.getD d)

/-- `d.get(k1, d.get(k2))` where the final default is `None`. -/
def pick2opt (a b : Option String) : Option String :=
  match a with
  | some s => some s
  | none => b

/-- The transformed (snake_case) success body `verify_pan` returns on the
happy path. -/
structure PanSuccessBody where
  status : String
  aadhaar_seeding_status : Option String
  category : String
  full_name : String
  first_name : Option String
  middle_name : Option String
  last_name : Option String
  message : String
  trace_id : String
deriving DecidableEq

/-- A caller-visible response of the identity stage: the transformed
success body, an error body (HTTP status, `status`, `message`,
`trace_id`), or the 401 raised by the access-gate dependency before the
handler runs. -/
inductive PanResponse where
  | ok (body : PanSuccessBody)
  | err (httpStatus : Nat) (status : String) (message : String) (trace_id : String)
  | authErr
deriving DecidableEq

/-- Everything one run of the identity stage produces. -/
structure PanRun where
  externalCalled : Bool
  response : PanResponse
  state : AppState
deriving DecidableEq

/-- Append an identity-check record (a successful `db.add` + `commit`). -/
def addPan (st : AppState) (rec : PANVerification) : AppState :=
  { st with pans := st.pans ++ [rec] }

/-- The failure-shaped identity record the handler stores on every
non-happy path (all name columns empty). -/
def mkFailPan (req : PANVerificationRequest) (status message trace : String) :
    PANVerification :=
  { pan := req.pan, full_name := "", category := "", aadhaar_seeding_status := none
    first_name := none, middle_name := none, last_name := none
    status := status, message := message, trace_id := trace }

/-- `verify_pan` (`app/main.py` 109-421).  `auth` is the validated bearer
credential of the inbound request (the route declares
`Depends(get_member_user)`); `flowUuid`/`errUuid` are the UUID oracle
(`flow_{uuid4()}` and `error_{uuid4()}`); `ext` is the external-call
oracle; `dbOk` tells whether a `db.commit()` in this run succeeds;
`st` is the record store. -/
def verify_pan (auth : Option User) (req : PANVerificationRequest)
    (flowUuid errUuid : String) (ext : PanExternal) (dbOk : Bool)
    (st : AppState) : PanRun :=
  match get_member_user auth with
  | none => { externalCalled := false, response := PanResponse.authErr, state := st }
  | some _ =>
    if strUpper req.consent != "Y" then
      { externalCalled := false
        response := PanResponse.err 400 "failed"
          "Consent must be 'Y' to proceed with verification" ("error_" ++ errUuid)
        state := st }
    else if req.reason.length < 20 then
      { externalCalled := false
        response := PanResponse.err 400 "failed"
          "Reason must be at least 20 characters long" ("error_" ++ errUuid)
        state := st }
    else
      let flowTrace := "flow_" ++ flowUuid
      match ext with
      | PanExternal.networkError =>
          -- store a connection_error record; a commit failure is swallowed
          let st1 := if dbOk then
              addPan st (mkFailPan req "connection_error"
                "PAN Verification Failed: Error communicating with Setu API" flowTrace)
            else st
          { externalCalled := true
            response := PanResponse.err 500 "connection_error"
              "PAN Verification Failed: Error communicating with verification service"
              flowTrace
            state := st1 }
      | PanExternal.reply code verification data message =>
        if code == 200 && verification == some "failed" then
          let st1 := if dbOk then
              addPan st (mkFailPan req "failed"
                ("PAN Verification Failed: " ++ message.getD "PAN not found") flowTrace)
            else st
          { externalCalled := true
            response := PanResponse.err 404 "failed"
              ("PAN Verification Failed: " ++
                message.getD "The provided PAN number was not found") flowTrace
            state := st1 }
        else if code == 200 then
          -- lines 206-287: the inner try also covers the missing-name store,
          -- so a failing commit in EITHER store lands in the `except` at 270
          -- and produces the 500 "error" response with no record written.
          if !truthy data.fullName && !truthy data.full_name then
            if dbOk then
              { externalCalled := true
                response := PanResponse.err 400 "failed"
                  "PAN Verification Failed: The provided PAN information could not be verified"
                  flowTrace
                state := addPan st (mkFailPan req "failed"
                  "PAN Verification Failed: Missing required data in response" flowTrace) }
            else
              { externalCalled := true
                response := PanResponse.err 500 "error"
                  "PAN Verification Failed: Error processing verification result"
                  flowTrace
                state := st }
          else
            let body : PanSuccessBody :=
              { status := "success"
                aadhaar_seeding_status :=
                  pick2opt data.aadhaarSeedingStatus data.aadhaar_seeding_status
                category := (data.category).getD "Unknown"
                full_name := pick2 data.fullName data.full_name "Unknown"
                first_name := pick2opt data.firstName data.first_name
                middle_name := pick2opt data.middleName data.middle_name
                last_name := pick2opt data.lastName data.last_name
                message := message.getD "PAN verification completed"
                trace_id := flowTrace }
            if dbOk then
              { externalCalled := true
                response := PanResponse.ok body
                state := addPan st
                  { pan := req.pan, full_name := body.full_name
                    category := body.category
                    aadhaar_seeding_status := body.aadhaar_seeding_status
                    first_name := body.first_name, middle_name := body.middle_name
                    last_name := body.last_name, status := body.status
                    message := body.message, trace_id := flowTrace } }
            else
              { externalCalled := true
                response := PanResponse.err 500 "error"
                  "PAN Verification Failed: Error processing verification result"
                  flowTrace
                state := st }
        else if code == 400 then
          let st1 := if dbOk then
              addPan st (mkFailPan req "failed"
                ("PAN Verification Failed: " ++ message.getD "Bad request") flowTrace)
            else st
          { externalCalled := true
            response := PanResponse.err 400 "failed"
              ("PAN Verification Failed: " ++
                message.getD "The provided PAN information could not be verified")
              flowTrace
            state := st1 }
        else if code == 404 then
          let st1 := if dbOk then
              addPan st (mkFailPan req "not_found"
                ("PAN Verification Failed: " ++ message.getD "PAN not found") flowTrace)
            else st
          { externalCalled := true
            response := PanResponse.err 404 "not_found"
              ("PAN Verification Failed: " ++
                message.getD "The provided PAN number was not found") flowTrace
            state := st1 }
        else
          let st1 := if dbOk then
              addPan st (mkFailPan req "error"
                "PAN Verification Failed: Error from Setu API" flowTrace)
            else st
          { externalCalled := true
            response := PanResponse.err code "error"
              "PAN Verification Failed: Error from verification service" flowTrace
            state := st1 }

/-! ## Bank-challenge stage (`create_reverse_penny_drop`, `app/main.py` 423-583) -/

/-- Mirror of `models.ReversePennyDropRequest`: `additionalData` is a JSON
object (an association list; the empty list doubles for Python's falsy
`None`/`{}`); `redirectionConfig` is never read by the handler (the code
that would forward it is commented out) and is omitted. -/
structure ReversePennyDropRequest where
  additionalData : List (String × String)
deriving DecidableEq

/-- Lines 437-439: `flow_trace_id = request.additionalData["flowTraceId"]`
when `additionalData` is truthy and holds the key, else `None`. -/
def rpdFlowTrace (req : ReversePennyDropRequest) : Option String :=
  if req.additionalData.isEmpty then none
  else req.additionalData.lookup "flowTraceId"

/-- The upstream JSON body of a bank-challenge reply, as the handler reads
it: each key looked up is an `Option String`. -/
structure RpdReplyData where
  id : Option String
  shortURL : Option String
  shortUrl : Option String
  status : Option String
  upiBillID : Option String
  upiBillId : Option String
  upiLink : Option String
  validUpto : Option String
  errorMessage : Option String
deriving DecidableEq

/-- External-call oracle for the bank-challenge stage. -/
inductive RpdExternal where
  | networkError
  | reply (code : Nat) (data : RpdReplyData)
deriving DecidableEq

/-- The transformed (snake_case) 201 body of the bank-challenge stage. -/
structure RpdSuccessBody where
  id : String
  short_url : String
  status : String
  trace_id : String
  upi_bill_id : String
  upi_link : String
  valid_upto : String
deriving DecidableEq

/-- A caller-visible response of the bank-challenge stage. -/
inductive RpdResponse where
  | ok (body : RpdSuccessBody)
  | err (httpStatus : Nat) (status : String) (message : String) (trace_id : String)
deriving DecidableEq

/-- Everything one run of the bank-challenge stage produces. -/
structure RpdRun where
  externalCalled : Bool
  response : RpdResponse
  state : AppState
deriving DecidableEq

/-- Append a bank-challenge record (a successful `db.add` + `commit`). -/
def addRpd (st : AppState) (rec : ReversePennyDrop) : AppState :=
  { st with rpds := st.rpds ++ [rec] }

/-- `create_reverse_penny_drop` (`app/main.py` 423-583).  The route
declares no authentication dependency, so the bearer credential `_auth`
carried by the inbound request is never consulted.  `errUuid` is the UUID
oracle for `error_{uuid4()}` / `connection_error_{uuid4()}` identifiers,
`ext` the external-call oracle, `dbOk` the commit oracle. -/
def create_reverse_penny_drop (_auth : Option User) (req : ReversePennyDropRequest)
    (errUuid : String) (ext : RpdExternal) (dbOk : Bool) (st : AppState) : RpdRun :=
  match rpdFlowTrace req with
  | none =>
      { externalCalled := false
        response := RpdResponse.err 400 "failed"
          "Missing trace_id for the verification flow. Please complete PAN verification first."
          ("error_" ++ errUuid)
        state := st }
  | some flowTrace =>
    if flowTrace == "" then
      { externalCalled := false
        response := RpdResponse.err 400 "failed"
          "Missing trace_id for the verification flow. Please complete PAN verification first."
          ("error_" ++ errUuid)
        state := st }
    else
      match ext with
      | RpdExternal.networkError =>
          let st1 := if dbOk then
              addRpd st
                { id := "connection_error_" ++ errUuid, short_url := ""
                  status := "CONNECTION_ERROR", trace_id := flowTrace
                  upi_bill_id := "", upi_link := "", valid_upto := "" }
            else st
          { externalCalled := true
            response := RpdResponse.err 500 "connection_error"
              "Reverse Penny Drop Failed: Error communicating with verification service"
              flowTrace
            state := st1 }
      | RpdExternal.reply code data =>
        if code == 201 then
          let body : RpdSuccessBody :=
            { id := (data.id).getD ""
              short_url := pick2 data.shortURL data.shortUrl ""
              status := (data.status).getD ""
              trace_id := flowTrace
              upi_bill_id := pick2 data.upiBillID data.upiBillId ""
              upi_link := (data.upiLink).getD ""
              valid_upto := (data.validUpto).getD "" }
          -- a failing commit is logged and swallowed; the 201 body is
          -- returned either way
          let st1 := if dbOk then
              addRpd st
                { id := body.id, short_url := body.short_url, status := body.status
                  trace_id := body.trace_id, upi_bill_id := body.upi_bill_id
                  upi_link := body.upi_link, valid_upto := body.valid_upto }
            else st
          { externalCalled := true, response := RpdResponse.ok body, state := st1 }
        else
          let st1 := if dbOk then
              addRpd st
                { id := (data.id).getD ("error_" ++ errUuid), short_url := ""
                  status := "ERROR", trace_id := flowTrace
                  upi_bill_id := "", upi_link := "", valid_upto := "" }
            else st
          { externalCalled := true
            response := RpdResponse.err code "failed"
              ("Reverse Penny Drop Failed: " ++
                (data.errorMessage).getD "Error from Setu API") flowTrace
            state := st1 }

/-! ## Payment-confirmation stage (`mock_payment`, `app/main.py` 585-730) -/

/-- Mirror of `models.MockPaymentRequest`: the request carries only the
challenge identifier and the desired outcome — it has no trace-identifier
field at all. -/
structure MockPaymentRequest where
  request_id : String
  payment_status : Bool
deriving DecidableEq

/-- The JSON payload `mock_payment` posts to the provider. -/
structure MockPayload where
  requestId : String
  status : String
  traceId : String
deriving DecidableEq

/-- External-call oracle for the payment stage: the reply carries the
optional `success`, `trace_id` and `error.message` values the handler
reads. -/
inductive MockExternal where
  | networkError
  | reply (code : Nat) (success : Option Bool) (trace_id : Option String)
      (errorMessage : Option String)
deriving DecidableEq

/-- A caller-visible response of the payment stage. -/
inductive MockResponse where
  | ok (success : Bool) (trace_id : String)
  | err (httpStatus : Nat) (status : String) (message : String) (trace_id : String)
deriving DecidableEq

/-- Everything one run of the payment stage produces; `calledWith` is the
payload of the outbound external call, `none` when no call was made. -/
structure MockRun where
  calledWith : Option MockPayload
  response : MockResponse
  state : AppState
deriving DecidableEq

/-- Append a payment record (a successful `db.add` + `commit`). -/
def addPayment (st : AppState) (rec : Payment) : AppState :=
  { st with payments := st.payments ++ [rec] }

/-- `query(ReversePennyDrop).filter(id == request_id).first()`: the first
stored bank-challenge record with the given identifier. -/
def findRpd (st : AppState) (id : String) : Option ReversePennyDrop :=
  st.rpds.find? (fun r => r.id == id)

/-- In-place `rpd.status = newStatus` on the first record with the given
identifier, as the ORM session does on line 667. -/
def setRpdStatus : List ReversePennyDrop → String → String → List ReversePennyDrop
  | [], _, _ => []
  | r :: rs, id, ns =>
      if r.id == id then { r with status := ns } :: rs
      else r :: setRpdStatus rs id ns

/-- `mock_payment` (`app/main.py` 585-730).  The route declares no
authentication dependency, so the bearer credential `_auth` is never
consulted.  `errUuid` is the UUID oracle, `ext` the external-call oracle;
`dbOk1` covers the payment-record commit (line 662) and `dbOk2` the
status-update commit (line 668) — a failure of the first aborts the whole
`try` block so the status update never happens. -/
def mock_payment (_auth : Option User) (req : MockPaymentRequest) (errUuid : String)
    (ext : MockExternal) (dbOk1 dbOk2 : Bool) (st : AppState) : MockRun :=
  match findRpd st req.request_id with
  | none =>
      { calledWith := none
        response := MockResponse.err 404 "not_found"
          "Reverse penny drop request not found. Please check the request ID and try again."
          ("error_" ++ errUuid)
        state := st }
  | some rpd =>
    let flowTrace := rpd.trace_id
    if flowTrace == "" then
      { calledWith := none
        response := MockResponse.err 400 "invalid_request"
          "Invalid verification flow. Missing trace_id in the reverse penny drop record."
          ("error_" ++ errUuid)
        state := st }
    else
      let payload : MockPayload :=
        { requestId := req.request_id
          status := if req.payment_status then "SUCCESS" else "FAILURE"
          traceId := flowTrace }
      match ext with
      | MockExternal.networkError =>
          let st1 := if dbOk1 then
              addPayment st
                { request_id := req.request_id, payment_status := false, trace_id := "" }
            else st
          { calledWith := some payload
            response := MockResponse.err 500 "connection_error"
              "Payment Failed: Error communicating with verification service" flowTrace
            state := st1 }
      | MockExternal.reply code success trace errorMessage =>
        if code == 200 then
          -- both commits sit in one try whose failure is swallowed; the
          -- 200 body is returned regardless of the store outcome
          let st1 := if dbOk1 then
              addPayment st
                { request_id := req.request_id
                  payment_status := req.payment_status, trace_id := flowTrace }
            else st
          let newStatus := if req.payment_status then "SUCCESS" else "EXPIRED"
          let st2 := if dbOk1 && dbOk2 then
              { st1 with rpds := setRpdStatus st1.rpds req.request_id newStatus }
            else st1
          { calledWith := some payload
            response := MockResponse.ok (success.getD true) flowTrace
            state := st2 }
        else
          let st1 := if dbOk1 then
              addPayment st
                { request_id := req.request_id, payment_status := false
                  trace_id := trace.getD "" }
            else st
          { calledWith := some payload
            response := MockResponse.err code "failed"
              ("Payment Failed: " ++ errorMessage.getD "Error from Setu API") flowTrace
            state := st1 }

/-! ## Shared lemmas about the trace sets -/

lemma perm_toFinset {α : Type} [DecidableEq α] {l1 l2 : List α} (h : l1.Perm l2) :
    l1.toFinset = l2.toFinset := by
  ext a
  simp only [List.mem_toFinset]
  exact h.mem_iff

/-- Membership in a set comprehension `{g x for x in filter f l}`. -/
lemma mem_trace_set {α : Type} (l : List α) (f : α → Bool) (g : α → String)
    (t : String) :
    t ∈ ((l.filter f).map g).toFinset ↔ ∃ x, x ∈ l ∧ f x = true ∧ g x = t := by
  simp only [List.mem_toFinset, List.mem_map, List.mem_filter]
  constructor
  · rintro ⟨x, ⟨hx, hf⟩, hg⟩
    exact ⟨x, hx, hf, hg⟩
  · rintro ⟨x, hx, hf, hg⟩
    exact ⟨x, ⟨hx, hf⟩, hg⟩

/-- Every non-empty bank-challenge trace is a success trace or a fail
trace: the record's status is `"SUCCESS"` or it is not. -/
lemma all_rpd_eq_union (rpds : List ReversePennyDrop) :
    all_rpd_trace_ids rpds =
      successful_rpd_trace_ids rpds ∪ failed_rpd_trace_ids rpds := by
  ext t
  simp only [Finset.mem_union]
  unfold all_rpd_trace_ids successful_rpd_trace_ids failed_rpd_trace_ids
  rw [mem_trace_set, mem_trace_set, mem_trace_set]
  constructor
  · rintro ⟨r, hr, hf, hg⟩
    by_cases hs : r.status = "SUCCESS"
    · exact Or.inl ⟨r, hr, by simp [hs, hf], hg⟩
    · exact Or.inr ⟨r, hr, by simp [hs, hf], hg⟩
  · rintro (⟨r, hr, hf, hg⟩ | ⟨r, hr, hf, hg⟩)
    · simp only [Bool.and_eq_true] at hf
      exact ⟨r, hr, hf.2, hg⟩
    · simp only [Bool.and_eq_true] at hf
      exact ⟨r, hr, hf.2, hg⟩

/-- When the bank success and fail trace sets are disjoint, the three
identity-success buckets (bank succeeded / bank failed / no bank record)
exactly partition the identity-success traces. -/
lemma card_sp_parts (sp sr fr : Finset String) (hd : sr ∩ fr = ∅) :
    (sp ∩ sr).card + (sp ∩ fr).card + (sp \ (sr ∪ fr)).card = sp.card := by
  have hdisj : Disjoint (sp ∩ sr) (sp ∩ fr) := by
    have h : Disjoint sr fr := Finset.disjoint_iff_inter_eq_empty.mpr hd
    exact h.mono Finset.inter_subset_right Finset.inter_subset_right
  have h1 : (sp ∩ sr).card + (sp ∩ fr).card = (sp ∩ (sr ∪ fr)).card := by
    rw [Finset.inter_union_distrib_left, Finset.card_union_of_disjoint hdisj]
  rw [h1, Finset.card_inter_add_card_sdiff]

lemma length_filter_add_le {α : Type} (l : List α) (p q : α → Bool)
    (h : ∀ x ∈ l, p x = true → q x = false) :
    (l.filter p).length + (l.filter q).length ≤ l.length := by
  induction l with
  | nil => simp
  | cons a l ih =>
    have ih' := ih (fun x hx hp => h x (List.mem_cons_of_mem a hx) hp)
    by_cases hp : p a = true
    · have hq := h a (List.mem_cons_self a l) hp
      simp only [List.filter_cons, hp, hq, if_true, if_false, List.length_cons,
        Bool.false_eq_true, List.length]
      omega
    · rw [Bool.not_eq_true] at hp
      cases hq : q a
      · simp only [List.filter_cons, hp, hq, if_false, Bool.false_eq_true,
          List.length_cons]
        omega
      · simp only [List.filter_cons, hp, hq, if_true, if_false, Bool.false_eq_true,
          List.length_cons]
        omega

lemma length_filter_add_eq {α : Type} (l : List α) (p q : α → Bool)
    (h : ∀ x ∈ l, q x = !(p x)) :
    (l.filter p).length + (l.filter q).length = l.length := by
  induction l with
  | nil => simp
  | cons a l ih =>
    have ih' := ih (fun x hx => h x (List.mem_cons_of_mem a hx))
    have ha := h a (List.mem_cons_self a l)
    cases hp : p a
    · rw [hp] at ha
      simp only [List.filter_cons, hp, ha, Bool.not_false, if_true, if_false,
        Bool.false_eq_true, List.length_cons]
      omega
    · rw [hp] at ha
      simp only [List.filter_cons, hp, ha, Bool.not_true, if_true, if_false,
        Bool.false_eq_true, List.length_cons]
      omega

lemma card_trace_set_le {α : Type} (l : List α) (f : α → Bool) (g : α → String) :
    ((l.filter f).map g).toFinset.card ≤ (l.filter f).length := by
  calc ((l.filter f).map g).toFinset.card ≤ ((l.filter f).map g).length :=
        List.toFinset_card_le _
    _ = (l.filter f).length := List.length_map _ _

lemma card_trace_set_eq {α : Type} (l : List α) (f : α → Bool) (g : α → String)
    (h : (l.map g).Nodup) :
    ((l.filter f).map g).toFinset.card = (l.filter f).length := by
  have hsub : List.Sublist ((l.filter f).map g) (l.map g) :=
    (List.filter_sublist l).map g
  have hnd : ((l.filter f).map g).Nodup := h.sublist hsub
  rw [List.toFinset_card_of_nodup hnd, List.length_map]

/-- When no bank record carries the challenge-created status and no two
bank records share a trace identifier, the success and fail trace sets
are disjoint. -/
lemma sr_fr_disjoint (rpds : List ReversePennyDrop)
    (h1 : ∀ r ∈ rpds, r.status ≠ "BAV_REVERSE_PENNY_DROP_CREATED")
    (h2 : (rpds.map (fun r => r.trace_id)).Nodup) :
    successful_rpd_trace_ids rpds ∩ failed_rpd_trace_ids rpds = ∅ := by
  ext t
  simp only [Finset.mem_inter, Finset.not_mem_empty, iff_false, not_and]
  intro hs hf
  unfold successful_rpd_trace_ids at hs
  unfold failed_rpd_trace_ids at hf
  rw [mem_trace_set] at hs hf
  obtain ⟨r, hr, hfr, hgr⟩ := hs
  obtain ⟨r', hr', hfr', hgr'⟩ := hf
  have heq : r = r' :=
    List.inj_on_of_nodup_map h2 hr hr' (by rw [hgr, hgr'])
  simp only [Bool.and_eq_true, Bool.or_eq_true, beq_iff_eq, bne_iff_ne] at hfr hfr'
  rcases hfr.1 with hS | hB
  · exact hfr'.1 (heq ▸ hS)
  · exact h1 r hr hB

/-- The six reported numbers, written out. -/
lemma computeMetrics_val (pans : List PANVerification) (rpds : List ReversePennyDrop) :
    computeMetrics pans rpds =
      { totalKycAttempted := (pans.length : Int)
        totalKycSuccessful :=
          ((successful_pan_trace_ids pans ∩ successful_rpd_trace_ids rpds).card : Int)
        totalKycFailed := (pans.length : Int) -
          ((successful_pan_trace_ids pans ∩ successful_rpd_trace_ids rpds).card : Int)
        totalKycFailedDueToPan := ((failed_pan_trace_ids pans).card : Int) -
          ((failed_pan_trace_ids pans ∩ failed_rpd_trace_ids rpds).card : Int)
        totalKycFailedDueToBankAccount :=
          ((failed_rpd_trace_ids rpds ∩ successful_pan_trace_ids pans).card : Int)
        totalKycFailedDueToBoth :=
          ((failed_pan_trace_ids pans ∩ failed_rpd_trace_ids rpds).card : Int)
        totalPanWithoutRpd :=
          ((successful_pan_trace_ids pans \ all_rpd_trace_ids rpds).card : Int) } :=
  rfl

/-! ## Concrete fixtures used by counterexamples and witnesses -/

/-- A successful identity-check record with trace identifier `"t"`. -/
def panSuccessT : PANVerification :=
  { pan := "ABCDE1234A", full_name := "John Doe", category := "Individual"
    aadhaar_seeding_status := none, first_name := none, middle_name := none
    last_name := none, status := "success", message := "ok", trace_id := "t" }

/-- A bank-challenge record in the freshly-created provider status, trace `"t"`. -/
def rpdBavT : ReversePennyDrop :=
  { id := "r1", short_url := "", status := "BAV_REVERSE_PENNY_DROP_CREATED"
    trace_id := "t", upi_bill_id := "", upi_link := "", valid_upto := "" }

/-- A failed bank-challenge record with trace `"t"`. -/
def rpdErrT : ReversePennyDrop :=
  { id := "r2", short_url := "", status := "ERROR", trace_id := "t"
    upi_bill_id := "", upi_link := "", valid_upto := "" }

/-- A settled bank-challenge record with trace `"u"`. -/
def rpdSuccU : ReversePennyDrop :=
  { id := "r3", short_url := "", status := "SUCCESS", trace_id := "u"
    upi_bill_id := "", upi_link := "", valid_upto := "" }

/-! ## C1 -/

/-- C1 counterexample: a bank-challenge record in the provider's
challenge-created status lies in `successful_rpd_trace_ids` (the code
counts that status as a bank success) and also in `failed_rpd_trace_ids`
(whose filter is `status != "SUCCESS"`), so the two sets are not
complements: trace `"t"` belongs to both. -/
theorem C1_counterexample :
    "t" ∈ successful_rpd_trace_ids [rpdBavT] ∧
    "t" ∈ failed_rpd_trace_ids [rpdBavT] := by
  decide

/-- C1 (amended): provided no bank-challenge record carries the
challenge-created status `BAV_REVERSE_PENNY_DROP_CREATED` and no two
bank-challenge records share a trace identifier, `bankFailTraces` is the
exact complement of `bankSuccessTraces` within the bank records carrying
a non-empty trace identifier (the sets are disjoint and together exhaust
those traces); and `failedDueToBank` counts exactly the trace identifiers
with a failed bank record and a successful identity record. -/
theorem C1_bank_sets_amended (pans : List PANVerification)
    (rpds : List ReversePennyDrop)
    (h1 : ∀ r ∈ rpds, r.status ≠ "BAV_REVERSE_PENNY_DROP_CREATED")
    (h2 : (rpds.map (fun r => r.trace_id)).Nodup) :
    successful_rpd_trace_ids rpds ∩ failed_rpd_trace_ids rpds = ∅ ∧
    successful_rpd_trace_ids rpds ∪ failed_rpd_trace_ids rpds =
      all_rpd_trace_ids rpds ∧
    (computeMetrics pans rpds).totalKycFailedDueToBankAccount =
      ((failed_rpd_trace_ids rpds ∩ successful_pan_trace_ids pans).card : Int) ∧
    (∀ t, t ∈ failed_rpd_trace_ids rpds ∩ successful_pan_trace_ids pans ↔
      ((∃ r, r ∈ rpds ∧ r.trace_id = t ∧ r.status ≠ "SUCCESS") ∧
       (∃ p, p ∈ pans ∧ p.trace_id = t ∧ p.status = "success") ∧ t ≠ "")) := by
  refine ⟨sr_fr_disjoint rpds h1 h2, (all_rpd_eq_union rpds).symm, rfl, ?_⟩
  intro t
  rw [Finset.mem_inter]
  unfold failed_rpd_trace_ids successful_pan_trace_ids
  rw [mem_trace_set, mem_trace_set]
  constructor
  · rintro ⟨⟨r, hr, hfr, hgr⟩, ⟨p, hp, hfp, hgp⟩⟩
    simp only [Bool.and_eq_true, bne_iff_ne, beq_iff_eq, ne_eq] at hfr hfp
    exact ⟨⟨r, hr, hgr, hfr.1⟩, ⟨p, hp, hgp, hfp.1⟩, hgr ▸ hfr.2⟩
  · rintro ⟨⟨r, hr, hgr, hsr⟩, ⟨p, hp, hgp, hsp⟩, ht⟩
    refine ⟨⟨r, hr, ?_, hgr⟩, ⟨p, hp, ?_, hgp⟩⟩
    · simp only [Bool.and_eq_true, bne_iff_ne, ne_eq]
      exact ⟨hsr, by rw [hgr]; exact ht⟩
    · simp only [Bool.and_eq_true, bne_iff_ne, beq_iff_eq, ne_eq]
      exact ⟨hsp, by rw [hgp]; exact ht⟩

/-- C1 witness: the amended statement applied at a concrete record set
satisfying both hypotheses. -/
theorem C1_bank_sets_amended_witness :
    (∀ r ∈ [rpdErrT, rpdSuccU], r.status ≠ "BAV_REVERSE_PENNY_DROP_CREATED") ∧
    (([rpdErrT, rpdSuccU].map (fun r => r.trace_id)).Nodup) ∧
    (successful_rpd_trace_ids [rpdErrT, rpdSuccU] ∩
        failed_rpd_trace_ids [rpdErrT, rpdSuccU] = ∅ ∧
      successful_rpd_trace_ids [rpdErrT, rpdSuccU] ∪
        failed_rpd_trace_ids [rpdErrT, rpdSuccU] =
        all_rpd_trace_ids [rpdErrT, rpdSuccU] ∧
      (computeMetrics [panSuccessT] [rpdErrT, rpdSuccU]).totalKycFailedDueToBankAccount =
        ((failed_rpd_trace_ids [rpdErrT, rpdSuccU] ∩
          successful_pan_trace_ids [panSuccessT]).card : Int) ∧
      (∀ t, t ∈ failed_rpd_trace_ids [rpdErrT, rpdSuccU] ∩
          successful_pan_trace_ids [panSuccessT] ↔
        ((∃ r, r ∈ [rpdErrT, rpdSuccU] ∧ r.trace_id = t ∧ r.status ≠ "SUCCESS") ∧
         (∃ p, p ∈ [panSuccessT] ∧ p.trace_id = t ∧ p.status = "success") ∧
         t ≠ ""))) :=
  ⟨by decide, by decide,
    C1_bank_sets_amended [panSuccessT] [rpdErrT, rpdSuccU] (by decide) (by decide)⟩

/-! ## C2 -/

/-- C2 counterexample: over one successful identity record with trace
`"t"` and one bank record in the challenge-created status with the same
trace, the five attribution counts sum to 2 while only 1 attempt exists —
the claimed inequality fails on the code because the bank success and
fail sets overlap. -/
theorem C2_counterexample :
    (computeMetrics [panSuccessT] [rpdBavT]).totalKycSuccessful +
      (computeMetrics [panSuccessT] [rpdBavT]).totalKycFailedDueToPan +
      (computeMetrics [panSuccessT] [rpdBavT]).totalKycFailedDueToBankAccount +
      (computeMetrics [panSuccessT] [rpdBavT]).totalKycFailedDueToBoth +
      (computeMetrics [panSuccessT] [rpdBavT]).totalPanWithoutRpd = 2 ∧
    (computeMetrics [panSuccessT] [rpdBavT]).totalKycAttempted = 1 := by
  decide

/-- C2 (amended): the attribution sum is at most `attemptsTotal` provided
no trace identifier lies in both the bank-success and the bank-fail trace
sets (on the code these sets are not complements: a record in the
challenge-created status lies in both, which is what the counterexample
exploits); equality holds when additionally every identity record carries
a non-empty trace identifier, no two identity records share one, and
every identity record has a matching bank-stage record. -/
theorem C2_metrics_sum_amended (pans : List PANVerification)
    (rpds : List ReversePennyDrop)
    (hd : successful_rpd_trace_ids rpds ∩ failed_rpd_trace_ids rpds = ∅) :
    ((computeMetrics pans rpds).totalKycSuccessful +
      (computeMetrics pans rpds).totalKycFailedDueToPan +
      (computeMetrics pans rpds).totalKycFailedDueToBankAccount +
      (computeMetrics pans rpds).totalKycFailedDueToBoth +
      (computeMetrics pans rpds).totalPanWithoutRpd ≤
      (computeMetrics pans rpds).totalKycAttempted) ∧
    ((∀ p ∈ pans, p.trace_id ≠ "") →
      (pans.map (fun p => p.trace_id)).Nodup →
      (∀ p ∈ pans, p.trace_id ∈ all_rpd_trace_ids rpds) →
      (computeMetrics pans rpds).totalKycSuccessful +
        (computeMetrics pans rpds).totalKycFailedDueToPan +
        (computeMetrics pans rpds).totalKycFailedDueToBankAccount +
        (computeMetrics pans rpds).totalKycFailedDueToBoth +
        (computeMetrics pans rpds).totalPanWithoutRpd =
        (computeMetrics pans rpds).totalKycAttempted) := by
  have hval := computeMetrics_val pans rpds
  have hA := card_sp_parts (successful_pan_trace_ids pans)
    (successful_rpd_trace_ids rpds) (failed_rpd_trace_ids rpds) hd
  have har := all_rpd_eq_union rpds
  have hcomm : failed_rpd_trace_ids rpds ∩ successful_pan_trace_ids pans =
      successful_pan_trace_ids pans ∩ failed_rpd_trace_ids rpds :=
    Finset.inter_comm _ _
  have hsp_le : (successful_pan_trace_ids pans).card ≤
      (pans.filter (fun p => p.status == "success" && p.trace_id != "")).length :=
    card_trace_set_le pans _ _
  have hfp_le : (failed_pan_trace_ids pans).card ≤
      (pans.filter (fun p => p.status != "success" && p.trace_id != "")).length :=
    card_trace_set_le pans _ _
  have hpq : ∀ x ∈ pans, (x.status == "success" && x.trace_id != "") = true →
      (x.status != "success" && x.trace_id != "") = false := by
    intro x _ hx
    simp only [Bool.and_eq_true] at hx
    simp [bne, hx.1]
  have hlen := length_filter_add_le pans
    (fun p => p.status == "success" && p.trace_id != "")
    (fun p => p.status != "success" && p.trace_id != "") hpq
  constructor
  · rw [hval]
    simp only []
    rw [hcomm, har]
    omega
  · intro hne hnd _hmb
    have hsp_eq : (successful_pan_trace_ids pans).card =
        (pans.filter (fun p => p.status == "success" && p.trace_id != "")).length :=
      card_trace_set_eq pans _ _ hnd
    have hfp_eq : (failed_pan_trace_ids pans).card =
        (pans.filter (fun p => p.status != "success" && p.trace_id != "")).length :=
      card_trace_set_eq pans _ _ hnd
    have hq : ∀ x ∈ pans, (x.status != "success" && x.trace_id != "") =
        !(x.status == "success" && x.trace_id != "") := by
      intro x hx
      have hx' : (x.trace_id != "") = true := by
        simp [hne x hx]
      rw [hx', Bool.and_true, Bool.and_true]
      rfl
    have hlen_eq := length_filter_add_eq pans
      (fun p => p.status == "success" && p.trace_id != "")
      (fun p => p.status != "success" && p.trace_id != "") hq
    rw [hval]
    simp only []
    rw [hcomm, har]
    omega

/-- C2 witness: the amended statement applied at a concrete record set
whose bank success and fail trace sets are disjoint. -/
theorem C2_metrics_sum_amended_witness :
    (successful_rpd_trace_ids [rpdSuccU] ∩ failed_rpd_trace_ids [rpdSuccU] = ∅) ∧
    ((computeMetrics [panSuccessT] [rpdSuccU]).totalKycSuccessful +
      (computeMetrics [panSuccessT] [rpdSuccU]).totalKycFailedDueToPan +
      (computeMetrics [panSuccessT] [rpdSuccU]).totalKycFailedDueToBankAccount +
      (computeMetrics [panSuccessT] [rpdSuccU]).totalKycFailedDueToBoth +
      (computeMetrics [panSuccessT] [rpdSuccU]).totalPanWithoutRpd ≤
      (computeMetrics [panSuccessT] [rpdSuccU]).totalKycAttempted) :=
  ⟨by decide, (C2_metrics_sum_amended [panSuccessT] [rpdSuccU] (by decide)).1⟩

/-! ## C9 -/

/-- A failed identity-check record with trace `"v"`. -/
def panFailV : PANVerification :=
  { pan := "FGHIJ5678B", full_name := "", category := ""
    aadhaar_seeding_status := none, first_name := none, middle_name := none
    last_name := none, status := "failed", message := "no", trace_id := "v" }

/-- C9: the funnel-metrics computation is a deterministic function of the
stored record set — it depends only on which records are stored, not on
the order the queries return them in, so recomputing it over an unchanged
record set (in any enumeration order) yields identical counts for every
reported metric. -/
theorem C9_metrics_deterministic (p1 p2 : List PANVerification)
    (r1 r2 : List ReversePennyDrop) (hp : p1.Perm p2) (hr : r1.Perm r2) :
    computeMetrics p1 r1 = computeMetrics p2 r2 := by
  have e1 : successful_pan_trace_ids p1 = successful_pan_trace_ids p2 :=
    perm_toFinset ((hp.filter _).map _)
  have e2 : failed_pan_trace_ids p1 = failed_pan_trace_ids p2 :=
    perm_toFinset ((hp.filter _).map _)
  have e3 : successful_rpd_trace_ids r1 = successful_rpd_trace_ids r2 :=
    perm_toFinset ((hr.filter _).map _)
  have e4 : failed_rpd_trace_ids r1 = failed_rpd_trace_ids r2 :=
    perm_toFinset ((hr.filter _).map _)
  have e5 : all_rpd_trace_ids r1 = all_rpd_trace_ids r2 :=
    perm_toFinset ((hr.filter _).map _)
  rw [computeMetrics_val, computeMetrics_val, e1, e2, e3, e4, e5, hp.length_eq]

/-- C9 witness: the theorem applied to one concrete record set enumerated
in two different orders. -/
theorem C9_metrics_deterministic_witness :
    ([panFailV, panSuccessT].Perm [panSuccessT, panFailV]) ∧
    ([rpdErrT, rpdSuccU].Perm [rpdSuccU, rpdErrT]) ∧
    computeMetrics [panFailV, panSuccessT] [rpdErrT, rpdSuccU] =
      computeMetrics [panSuccessT, panFailV] [rpdSuccU, rpdErrT] :=
  ⟨List.Perm.swap panSuccessT panFailV [], List.Perm.swap rpdSuccU rpdErrT [],
    C9_metrics_deterministic _ _ _ _ (List.Perm.swap panSuccessT panFailV [])
      (List.Perm.swap rpdSuccU rpdErrT [])⟩

/-! ## C10 -/

/-- C10: when the metrics computation raises, the endpoint returns a
normal body whose every count is zero — exactly the body it returns for
an empty record store, so the two cases are indistinguishable to the
caller. -/
theorem C10_error_equals_empty (pans : List PANVerification)
    (rpds : List ReversePennyDrop) :
    get_admin_metrics false pans rpds =
      get_admin_metrics true ([] : List PANVerification)
        ([] : List ReversePennyDrop) ∧
    get_admin_metrics false pans rpds = zeroMetrics := by
  constructor
  · show zeroMetrics = computeMetrics [] []
    decide
  · rfl

/-! ## Fixtures for the endpoint claims -/

/-- An active member user, as the member gate validates. -/
def uMem : User := { username := "alice", role := UserRole.MEMBER, is_active := true }

/-- A well-formed identity-verification request (consent `"Y"`, a reason
of more than 20 characters). -/
def reqPanOk : PANVerificationRequest :=
  { pan := "ABCDE1234A", consent := "Y"
    reason := "bank account opening verification" }

/-- The same request with the consent flag refused. -/
def reqPanNoConsent : PANVerificationRequest :=
  { pan := "ABCDE1234A", consent := "N"
    reason := "bank account opening verification" }

/-- An upstream reply body carrying the mandatory name field. -/
def dataFullName : PanReplyData :=
  { fullName := some "John Doe", full_name := none, aadhaarSeedingStatus := none
    aadhaar_seeding_status := none, category := some "Individual"
    firstName := none, first_name := none, middleName := none
    middle_name := none, lastName := none, last_name := none }

/-- A successful upstream identity reply: HTTP 200, no failure marker,
name present. -/
def extPanOk : PanExternal :=
  PanExternal.reply 200 none dataFullName (some "PAN is valid")

/-- The empty record store. -/
def stEmpty : AppState := { pans := [], rpds := [], payments := [] }

/-- A stored bank-challenge record `"r"`, freshly created, trace `"t"`. -/
def rpdCreatedR : ReversePennyDrop :=
  { id := "r", short_url := "", status := "BAV_REVERSE_PENNY_DROP_CREATED"
    trace_id := "t", upi_bill_id := "", upi_link := "", valid_upto := "" }

/-- A store holding only `rpdCreatedR`. -/
def stWithRpd : AppState := { pans := [], rpds := [rpdCreatedR], payments := [] }

/-- A stored bank-challenge record `"r"` already in status `SUCCESS`. -/
def rpdSuccR : ReversePennyDrop :=
  { id := "r", short_url := "", status := "SUCCESS", trace_id := "t"
    upi_bill_id := "", upi_link := "", valid_upto := "" }

/-- A store holding only `rpdSuccR`. -/
def stWithSuccRpd : AppState := { pans := [], rpds := [rpdSuccR], payments := [] }

/-- A payment confirmation for challenge `"r"` with desired failure. -/
def reqMockFail : MockPaymentRequest := { request_id := "r", payment_status := false }

/-- A payment confirmation for challenge `"r"` with desired success. -/
def reqMockOk : MockPaymentRequest := { request_id := "r", payment_status := true }

/-! ## C6 -/

/-- C6: once the member gate has passed, a request whose consent flag is
not (case-insensitively) `Y` or whose reason is shorter than 20
characters makes the identity stage return a 400 `failed` outcome with no
external call and no record written. -/
theorem C6_precondition_short_circuit (auth : Option User) (u : User)
    (req : PANVerificationRequest) (flowUuid errUuid : String)
    (ext : PanExternal) (dbOk : Bool) (st : AppState)
    (hgate : get_member_user auth = some u)
    (hpre : strUpper req.consent ≠ "Y" ∨ req.reason.length < 20) :
    (verify_pan auth req flowUuid errUuid ext dbOk st).externalCalled = false ∧
    (verify_pan auth req flowUuid errUuid ext dbOk st).state = st ∧
    ((verify_pan auth req flowUuid errUuid ext dbOk st).response =
        PanResponse.err 400 "failed"
          "Consent must be 'Y' to proceed with verification"
          ("error_" ++ errUuid) ∨
      (verify_pan auth req flowUuid errUuid ext dbOk st).response =
        PanResponse.err 400 "failed"
          "Reason must be at least 20 characters long"
          ("error_" ++ errUuid)) := by
  unfold verify_pan
  rw [hgate]
  by_cases hc : strUpper req.consent = "Y"
  · have hlt : req.reason.length < 20 := by
      rcases hpre with h | h
      · exact absurd hc h
      · exact h
    have hc' : (strUpper req.consent != "Y") = false := by
      simp [hc]
    simp [hc', hlt]
  · have hc' : (strUpper req.consent != "Y") = true := by
      simp [hc]
    simp [hc']

/-- C6 witness: the theorem applied to a concrete refused-consent request
behind a valid member credential. -/
theorem C6_precondition_short_circuit_witness :
    get_member_user (some uMem) = some uMem ∧
    (strUpper reqPanNoConsent.consent ≠ "Y" ∨ reqPanNoConsent.reason.length < 20) ∧
    ((verify_pan (some uMem) reqPanNoConsent "f" "e" extPanOk true
        stEmpty).externalCalled = false ∧
      (verify_pan (some uMem) reqPanNoConsent "f" "e" extPanOk true
        stEmpty).state = stEmpty ∧
      ((verify_pan (some uMem) reqPanNoConsent "f" "e" extPanOk true
          stEmpty).response =
          PanResponse.err 400 "failed"
            "Consent must be 'Y' to proceed with verification" ("error_" ++ "e") ∨
        (verify_pan (some uMem) reqPanNoConsent "f" "e" extPanOk true
          stEmpty).response =
          PanResponse.err 400 "failed"
            "Reason must be at least 20 characters long" ("error_" ++ "e"))) :=
  ⟨by decide, Or.inl (by decide),
    C6_precondition_short_circuit (some uMem) uMem reqPanNoConsent "f" "e"
      extPanOk true stEmpty (by decide) (Or.inl (by decide))⟩

/-! ## C7 -/

/-- C7: a payment confirmation whose request identifier matches no stored
bank-challenge record returns the 404 not-found response, makes no
external call, and leaves the store untouched. -/
theorem C7_unknown_request (auth : Option User) (req : MockPaymentRequest)
    (errUuid : String) (ext : MockExternal) (d1 d2 : Bool) (st : AppState)
    (h : findRpd st req.request_id = none) :
    mock_payment auth req errUuid ext d1 d2 st =
      { calledWith := none
        response := MockResponse.err 404 "not_found"
          "Reverse penny drop request not found. Please check the request ID and try again."
          ("error_" ++ errUuid)
        state := st } := by
  unfold mock_payment
  rw [h]

/-- C7 witness: the theorem applied to the empty store. -/
theorem C7_unknown_request_witness :
    findRpd stEmpty reqMockOk.request_id = none ∧
    mock_payment none reqMockOk "e" (MockExternal.reply 200 none none none)
        true true stEmpty =
      { calledWith := none
        response := MockResponse.err 404 "not_found"
          "Reverse penny drop request not found. Please check the request ID and try again."
          ("error_" ++ "e")
        state := stEmpty } :=
  ⟨by decide,
    C7_unknown_request none reqMockOk "e" (MockExternal.reply 200 none none none)
      true true stEmpty (by decide)⟩

/-! ## C8 -/

/-- C8: whenever a payment confirmation on an existing bank-challenge
record produces the success response, the trace identifier of that
response, of the outgoing external payload, and of any payment record
appended in the run is exactly the trace identifier stored on the
bank-challenge record — the request itself (which carries no trace field)
cannot influence it. -/
theorem C8_trace_linkage (auth : Option User) (req : MockPaymentRequest)
    (errUuid : String) (ext : MockExternal) (d1 d2 : Bool) (st : AppState)
    (rpd : ReversePennyDrop) (s : Bool) (t : String)
    (hf : findRpd st req.request_id = some rpd)
    (hok : (mock_payment auth req errUuid ext d1 d2 st).response =
      MockResponse.ok s t) :
    t = rpd.trace_id ∧
    (mock_payment auth req errUuid ext d1 d2 st).calledWith =
      some { requestId := req.request_id
             status := if req.payment_status then "SUCCESS" else "FAILURE"
             traceId := rpd.trace_id } ∧
    ((mock_payment auth req errUuid ext d1 d2 st).state.payments =
        st.payments ∨
      (mock_payment auth req errUuid ext d1 d2 st).state.payments =
        st.payments ++ [{ request_id := req.request_id
                          payment_status := req.payment_status
                          trace_id := rpd.trace_id }]) := by
  unfold mock_payment at hok ⊢
  rw [hf] at hok ⊢
  by_cases htr : (rpd.trace_id == "") = true
  · simp [htr] at hok
  · cases ext with
    | networkError =>
        simp [htr] at hok
    | reply code success trace errorMessage =>
        by_cases hc : (code == 200) = true
        · simp only [htr, hc, if_true, if_false, Bool.false_eq_true] at hok ⊢
          simp only [MockResponse.ok.injEq] at hok
          refine ⟨hok.2.symm, by simp, ?_⟩
          cases d1 <;> cases d2 <;> simp [addPayment]
        · simp [htr, hc] at hok

/-- C8 witness: the theorem applied to a store holding one challenge
record with trace `"t"` and a confirming 200 reply. -/
theorem C8_trace_linkage_witness :
    findRpd stWithRpd reqMockOk.request_id = some rpdCreatedR ∧
    (mock_payment none reqMockOk "e" (MockExternal.reply 200 (some true) none none)
        true true stWithRpd).response = MockResponse.ok true "t" ∧
    ("t" = rpdCreatedR.trace_id ∧
      (mock_payment none reqMockOk "e"
          (MockExternal.reply 200 (some true) none none) true true
          stWithRpd).calledWith =
        some { requestId := reqMockOk.request_id
               status := if reqMockOk.payment_status then "SUCCESS" else "FAILURE"
               traceId := rpdCreatedR.trace_id } ∧
      ((mock_payment none reqMockOk "e"
            (MockExternal.reply 200 (some true) none none) true true
            stWithRpd).state.payments = stWithRpd.payments ∨
        (mock_payment none reqMockOk "e"
            (MockExternal.reply 200 (some true) none none) true true
            stWithRpd).state.payments =
          stWithRpd.payments ++
            [{ request_id := reqMockOk.request_id
               payment_status := reqMockOk.payment_status
               trace_id := rpdCreatedR.trace_id }])) :=
  ⟨by decide, by decide,
    C8_trace_linkage none reqMockOk "e" (MockExternal.reply 200 (some true) none none)
      true true stWithRpd rpdCreatedR true "t" (by decide) (by decide)⟩

/-! ## C4 -/

/-- C4 counterexample: a payment confirmation carrying no credential at
all (`none`) still reaches the external client (an outbound payload is
produced) and writes a payment record to the store, and an
uncredentialled bank-challenge creation also reaches the external
client — so it is false that every orchestrator stage validates a bearer
token before executing. -/
theorem C4_counterexample :
    (mock_payment none reqMockOk "e" (MockExternal.reply 200 (some true) none none)
        true true stWithRpd).calledWith =
      some { requestId := "r", status := "SUCCESS", traceId := "t" } ∧
    (mock_payment none reqMockOk "e" (MockExternal.reply 200 (some true) none none)
        true true stWithRpd).state.payments =
      [{ request_id := "r", payment_status := true, trace_id := "t" }] ∧
    (create_reverse_penny_drop none { additionalData := [("flowTraceId", "t")] }
        "e" (RpdExternal.reply 201
          { id := some "rpd1", shortURL := none, shortUrl := none, status := none
            upiBillID := none, upiBillId := none, upiLink := none
            validUpto := none, errorMessage := none })
        true stEmpty).externalCalled = true := by
  decide

/-- C4 (amended): only the identity-verification stage is gated: with no
valid member credential, `verify_pan` returns the auth error, makes no
external call and writes nothing; the bank-challenge-creation and
payment-confirmation endpoints declare no authentication dependency and
behave identically whatever credential (or none) the request carries. -/
theorem C4_identity_gate_amended (auth : Option User)
    (req : PANVerificationRequest) (flowUuid errUuid : String)
    (ext : PanExternal) (dbOk : Bool) (st : AppState)
    (h : get_member_user auth = none) :
    ((verify_pan auth req flowUuid errUuid ext dbOk st).externalCalled = false ∧
      (verify_pan auth req flowUuid errUuid ext dbOk st).response =
        PanResponse.authErr ∧
      (verify_pan auth req flowUuid errUuid ext dbOk st).state = st) ∧
    (∀ (a1 a2 : Option User) (reqR : ReversePennyDropRequest) (eU : String)
        (extR : RpdExternal) (dOk : Bool) (st2 : AppState),
      create_reverse_penny_drop a1 reqR eU extR dOk st2 =
        create_reverse_penny_drop a2 reqR eU extR dOk st2) ∧
    (∀ (a1 a2 : Option User) (reqM : MockPaymentRequest) (eU : String)
        (extM : MockExternal) (d1 d2 : Bool) (st3 : AppState),
      mock_payment a1 reqM eU extM d1 d2 st3 =
        mock_payment a2 reqM eU extM d1 d2 st3) := by
  refine ⟨?_, fun _ _ _ _ _ _ _ => rfl, fun _ _ _ _ _ _ _ _ => rfl⟩
  unfold verify_pan
  rw [h]
  exact ⟨rfl, rfl, rfl⟩

/-- C4 witness: the amended statement applied to an uncredentialled
identity-verification request. -/
theorem C4_identity_gate_amended_witness :
    get_member_user none = none ∧
    ((verify_pan none reqPanOk "f" "e" extPanOk true stEmpty).externalCalled =
        false ∧
      (verify_pan none reqPanOk "f" "e" extPanOk true stEmpty).response =
        PanResponse.authErr ∧
      (verify_pan none reqPanOk "f" "e" extPanOk true stEmpty).state = stEmpty) :=
  ⟨rfl, (C4_identity_gate_amended none reqPanOk "f" "e" extPanOk true stEmpty rfl).1⟩

/-! ## C5 -/

/-- C5 counterexample: an identity verification whose external call
succeeds (HTTP 200 with the name present) returns the transformed success
body when the store commit succeeds, but a 500 `error` body when the
commit fails — the persistence failure does change the caller-visible
response on the identity stage's success path. -/
theorem C5_counterexample :
    (verify_pan (some uMem) reqPanOk "f" "e" extPanOk true stEmpty).response =
      PanResponse.ok
        { status := "success", aadhaar_seeding_status := none
          category := "Individual", full_name := "John Doe", first_name := none
          middle_name := none, last_name := none, message := "PAN is valid"
          trace_id := "flow_f" } ∧
    (verify_pan (some uMem) reqPanOk "f" "e" extPanOk false stEmpty).response =
      PanResponse.err 500 "error"
        "PAN Verification Failed: Error processing verification result"
        "flow_f" := by
  decide

/-- C5 (amended): for the bank-challenge and payment-confirmation stages
the caller-visible response never depends on whether persistence
succeeds; on the identity stage the guarantee fails on the success path,
where a persistence failure turns the success body into a 500 error (as
the counterexample shows). -/
theorem C5_persistence_amended (auth : Option User)
    (reqR : ReversePennyDropRequest) (eU : String) (extR : RpdExternal)
    (dOk : Bool) (st : AppState) (auth2 : Option User)
    (reqM : MockPaymentRequest) (eU2 : String) (extM : MockExternal)
    (d1 d2 : Bool) (st2 : AppState) :
    (create_reverse_penny_drop auth reqR eU extR dOk st).response =
      (create_reverse_penny_drop auth reqR eU extR true st).response ∧
    (mock_payment auth2 reqM eU2 extM d1 d2 st2).response =
      (mock_payment auth2 reqM eU2 extM true true st2).response := by
  constructor
  · unfold create_reverse_penny_drop
    cases h : rpdFlowTrace reqR with
    | none => rfl
    | some a =>
        by_cases ha : (a == "") = true
        · simp [ha]
        · cases extR with
          | networkError => simp [ha]
          | reply code data =>
              by_cases hc : (code == 201) = true
              · simp [ha, hc]
              · simp [ha, hc]
  · unfold mock_payment
    cases h : findRpd st2 reqM.request_id with
    | none => rfl
    | some rpd =>
        by_cases ht : (rpd.trace_id == "") = true
        · simp [ht]
        · cases extM with
          | networkError => simp [ht]
          | reply code success trace errorMessage =>
              by_cases hc : (code == 200) = true
              · simp [ht, hc]
              · simp [ht, hc]

/-! ## C3 -/

/-- The in-place status write touches at most the first record with the
given identifier, and only writes the supplied status there. -/
lemma setRpdStatus_getElem (l : List ReversePennyDrop) (id ns : String)
    (i : Nat) (r : ReversePennyDrop) (h : l[i]? = some r) :
    (setRpdStatus l id ns)[i]? = some r ∨
    (setRpdStatus l id ns)[i]? = some { r with status := ns } := by
  induction l generalizing i with
  | nil => simp at h
  | cons a l ih =>
    cases i with
    | zero =>
        simp only [List.getElem?_cons_zero, Option.some.injEq] at h
        subst h
        by_cases ha : (a.id == id) = true
        · right
          simp [setRpdStatus, ha]
        · left
          simp [setRpdStatus, ha]
    | succ n =>
        simp only [List.getElem?_cons_succ] at h
        by_cases ha : (a.id == id) = true
        · left
          simp [setRpdStatus, ha, h]
        · rcases ih n h with h' | h'
          · left
            simp [setRpdStatus, ha, h']
          · right
            simp [setRpdStatus, ha, h']

/-- C3 counterexample: a stored bank-challenge record already in status
`SUCCESS` (not `CREATED`) is transitioned to `EXPIRED` by a payment
confirmation with desired failure — contradicting the claim that a record
whose status is not `CREATED` is never transitioned. -/
theorem C3_counterexample :
    rpdSuccR.status = "SUCCESS" ∧
    (mock_payment none reqMockFail "e"
        (MockExternal.reply 200 (some true) none none) true true
        stWithSuccRpd).state.rpds =
      [{ rpdSuccR with status := "EXPIRED" }] := by
  decide

/-- C3 (amended): no operation ever writes any status other than
`SUCCESS` or `EXPIRED` onto an existing bank-challenge record — the
identity stage leaves the bank-challenge table unchanged, bank-challenge
creation only appends (every pre-existing record survives unchanged), and
payment confirmation either leaves a stored record unchanged or sets its
status to `SUCCESS` or `EXPIRED`, regardless of the record's prior
status (the code enforces no `CREATED`-only precondition, which is what
the counterexample exploits). -/
theorem C3_status_transitions_amended (a1 a2 a3 : Option User)
    (reqP : PANVerificationRequest) (fU eU eU2 eU3 : String)
    (extP : PanExternal) (dP : Bool)
    (reqR : ReversePennyDropRequest) (extR : RpdExternal) (dR : Bool)
    (reqM : MockPaymentRequest) (extM : MockExternal) (d1 d2 : Bool)
    (st : AppState) :
    (verify_pan a1 reqP fU eU extP dP st).state.rpds = st.rpds ∧
    ((create_reverse_penny_drop a2 reqR eU2 extR dR st).state.rpds.take
        st.rpds.length = st.rpds) ∧
    (∀ (i : Nat) (r : ReversePennyDrop), st.rpds[i]? = some r →
      (mock_payment a3 reqM eU3 extM d1 d2 st).state.rpds[i]? = some r ∨
      (mock_payment a3 reqM eU3 extM d1 d2 st).state.rpds[i]? =
        some { r with status := "SUCCESS" } ∨
      (mock_payment a3 reqM eU3 extM d1 d2 st).state.rpds[i]? =
        some { r with status := "EXPIRED" }) := by
  refine ⟨?_, ?_, ?_⟩
  · unfold verify_pan
    cases get_member_user a1 with
    | none => rfl
    | some u =>
        by_cases hc : (strUpper reqP.consent != "Y") = true
        · simp [hc]
        · by_cases hr : reqP.reason.length < 20
          · simp [hc, hr]
          · cases extP with
            | networkError => cases dP <;> simp [hc, hr, addPan]
            | reply code verification data message =>
                by_cases h2 : (code == 200) = true
                · by_cases hv : (verification == some "failed") = true
                  · cases dP <;> simp [hc, hr, h2, hv, addPan]
                  · by_cases h3 :
                        (!truthy data.fullName && !truthy data.full_name) = true
                    · cases dP <;> simp [hc, hr, h2, hv, h3, addPan]
                    · cases dP <;> simp [hc, hr, h2, hv, h3, addPan]
                · by_cases h4 : (code == 400) = true
                  · cases dP <;> simp [hc, hr, h2, h4, addPan]
                  · by_cases h5 : (code == 404) = true
                    · cases dP <;> simp [hc, hr, h2, h4, h5, addPan]
                    · cases dP <;> simp [hc, hr, h2, h4, h5, addPan]
  · unfold create_reverse_penny_drop
    cases h : rpdFlowTrace reqR with
    | none => simp [List.take_length]
    | some a =>
        by_cases ha : (a == "") = true
        · simp [ha, List.take_length]
        · cases extR with
          | networkError =>
              cases dR <;> simp [ha, addRpd, List.take_length, List.take_left]
          | reply code data =>
              by_cases hc : (code == 201) = true
              · cases dR <;> simp [ha, hc, addRpd, List.take_length, List.take_left]
              · cases dR <;> simp [ha, hc, addRpd, List.take_length, List.take_left]
  · intro i r hir
    unfold mock_payment
    cases hf : findRpd st reqM.request_id with
    | none => exact Or.inl hir
    | some rpd =>
        by_cases ht : (rpd.trace_id == "") = true
        · simp only [ht, if_true]
          exact Or.inl hir
        · cases extM with
          | networkError =>
              cases d1 <;> simp [ht, addPayment, hir]
          | reply code success trace errorMessage =>
              by_cases hc : (code == 200) = true
              · simp only [ht, hc, if_true, if_false, Bool.false_eq_true]
                cases d1 with
                | false => simp [addPayment, hir]
                | true =>
                    cases d2 with
                    | false => simp [addPayment, hir]
                    | true =>
                        simp only [Bool.and_self, if_true, addPayment]
                        cases reqM.payment_status with
                        | false =>
                            rcases setRpdStatus_getElem st.rpds
                                reqM.request_id "EXPIRED" i r hir with h' | h'
                            · exact Or.inl (by simpa using h')
                            · exact Or.inr (Or.inr (by simpa using h'))
                        | true =>
                            rcases setRpdStatus_getElem st.rpds
                                reqM.request_id "SUCCESS" i r hir with h' | h'
                            · exact Or.inl (by simpa using h')
                            · exact Or.inr (Or.inl (by simpa using h'))
              · cases d1 <;> simp [ht, hc, addPayment, hir]

/-- C3 witness: the amended statement evaluated at a store holding one
record, with a confirming payment. -/
theorem C3_status_transitions_amended_witness :
    stWithSuccRpd.rpds[0]? = some rpdSuccR ∧
    ((mock_payment none reqMockOk "e"
        (MockExternal.reply 200 (some true) none none) true true
        stWithSuccRpd).state.rpds[0]? = some rpdSuccR ∨
      (mock_payment none reqMockOk "e"
          (MockExternal.reply 200 (some true) none none) true true
          stWithSuccRpd).state.rpds[0]? =
        some { rpdSuccR with status := "SUCCESS" } ∨
      (mock_payment none reqMockOk "e"
          (MockExternal.reply 200 (some true) none none) true true
          stWithSuccRpd).state.rpds[0]? =
        some { rpdSuccR with status := "EXPIRED" }) :=
  ⟨by decide,
    (C3_status_transitions_amended none none none reqPanOk "f" "e" "e" "e"
        extPanOk true { additionalData := [] } (RpdExternal.reply 201
          { id := none, shortURL := none, shortUrl := none, status := none
            upiBillID := none, upiBillId := none, upiLink := none
            validUpto := none, errorMessage := none }) true
        reqMockOk (MockExternal.reply 200 (some true) none none) true true
        stWithSuccRpd).2.2 0 rpdSuccR (by decide)⟩

end Setu
